import Mathlib

/-!
Verification development for `bin/map_reads.py` of the Mapping-Scripts
repository.  The Python script is shallowly embedded below: pure string
manipulation is translated to Lean functions on `String`/`List Char`,
file contents are lists of lines (`List String`), the filesystem and the
external processes are abstracted into explicit boolean/`Except`-valued
oracles, and the orchestrator's control flow together with its emitted
log records becomes a pure function returning the ordered list of log
events plus the propagated error, if any.
-/

namespace MapReads

/-! ## Python string primitives -/

/-- Boolean test that `needle` is a leading segment of `hay` (character lists). -/
def isLeadingCL : List Char → List Char → Bool
  | [], _ => true
  | _ :: _, [] => false
  | a :: as, b :: bs => a == b && isLeadingCL as bs

/-- Boolean substring containment on character lists, scanning every start position. -/
def containsCL (needle : List Char) : List Char → Bool
  | [] => needle.isEmpty
  | b :: bs => isLeadingCL needle (b :: bs) || containsCL needle bs

/-- Python's `needle in hay` on strings: substring containment. -/
def pyIn (needle hay : String) : Bool :=
  containsCL needle.data hay.data

/-- Python's `str.strip()` with no argument: remove leading and trailing whitespace. -/
def pyStrip (s : String) : String :=
  String.mk (((s.data.dropWhile Char.isWhitespace).reverse.dropWhile Char.isWhitespace).reverse)

/-- Python's slice `s[:n]`: the first `n` characters of `s` (all of `s` when shorter). -/
def strTake (n : Nat) (s : String) : String :=
  String.mk (s.data.take n)

/-- `os.path.join(dir, fname)` for a non-empty directory path without trailing slash. -/
def pjoin (dir fname : String) : String :=
  dir ++ "/" ++ fname

/-! ## detect_parameters: whitelist selection (map_reads.py lines 80-116)

The four candidate whitelist filenames, in the declaration order of the
`whitelists` dict literal (Python dicts iterate in insertion order). -/

/-- Python's `max(items, key=lambda x: x[1])` over a non-empty item list:
fold that replaces the current best only on a strictly greater second
component, so the earliest maximal item is kept. -/
def pyMaxBySnd : (String × Nat) → List (String × Nat) → (String × Nat)
  | best, [] => best
  | best, x :: xs => pyMaxBySnd (if best.2 < x.2 then x else best) xs

/-- `best_whitelist = max(whitelists.items(), key=lambda x: x[1])` at line 106,
with the four candidates in dict-declaration order and their match counts
`c0 c1 c2 c3`. -/
def best_whitelist (c0 c1 c2 c3 : Nat) : String × Nat :=
  pyMaxBySnd ("3M-february-2018.txt", c0)
    [("737K-august-2016.txt", c1), ("737K-arc-v1.txt", c2), ("737K-april-2014_rc.txt", c3)]

/-- Line 112: `16 if "3M" in best_whitelist[0] or "737K-august-2016" in best_whitelist[0] else 14`. -/
def cb_len_of (wlName : String) : Nat :=
  if pyIn "3M" wlName || pyIn "737K-august-2016" wlName then 16 else 14

/-- Line 113: `12 if "3M" in best_whitelist[0] else 10`. -/
def umi_len_of (wlName : String) : Nat :=
  if pyIn "3M" wlName then 12 else 10

/-- Modelled from the spec (section 4.2 step 5): the fixed filename-to-chemistry
lookup stated there — a name containing "3M" yields (16,12); a name containing
"737K-august-2016" yields (16,10); any other recognized name yields (14,10). -/
def specChemTable (wlName : String) : Nat × Nat :=
  if pyIn "3M" wlName then (16, 12)
  else if pyIn "737K-august-2016" wlName then (16, 10)
  else (14, 10)

/-- The `params` dict built at lines 110-116 of map_reads.py. -/
structure StarParams where
  whitelist : String
  cb_len : Nat
  umi_len : Nat
  strand : String
  barcodeReadLength : Option Nat
deriving DecidableEq

/-- One entry of the `whitelists` count dict: the loop at lines 96-103 only
assigns a count for a candidate whose file exists; a missing candidate keeps
its initial count 0.  `m` is the count the scan would produce when the file
is present. -/
def effCount (exF : String → Bool) (wdir wlName : String) (m : Nat) : Nat :=
  if exF (pjoin wdir wlName) then m else 0

/-- The filename selected at line 106, given the file-existence oracle `exF`
and the per-candidate present-file match counts `m0 m1 m2 m3`. -/
def detect_chosen (exF : String → Bool) (wdir : String) (m0 m1 m2 m3 : Nat) : String :=
  (best_whitelist (effCount exF wdir "3M-february-2018.txt" m0)
                  (effCount exF wdir "737K-august-2016.txt" m1)
                  (effCount exF wdir "737K-arc-v1.txt" m2)
                  (effCount exF wdir "737K-april-2014_rc.txt" m3)).1

/-- The `params` dict of lines 110-116 for a chosen whitelist filename:
whitelist path joined with the directory, lengths from the substring table,
strand fixed to "Forward", and `barcodeReadLength` set to 0 exactly when the
read-1 lengths were not uniform (`0 if not r1_uniform else None`). -/
def mkParams (wdir chosen : String) (uniform : Bool) : StarParams :=
  { whitelist := pjoin wdir chosen,
    cb_len := cb_len_of chosen,
    umi_len := umi_len_of chosen,
    strand := "Forward",
    barcodeReadLength := if uniform then none else some 0 }

/-- Selection-and-verification stage of `detect_parameters` (lines 96-123):
effective counts are zero for absent candidate files, the maximum (earliest on
ties) is selected, the params dict is built, and lines 118-120 raise
`FileNotFoundError` when the selected whitelist path does not exist. -/
def detect_parameters_select (exF : String → Bool) (wdir : String)
    (m0 m1 m2 m3 : Nat) (uniform : Bool) : Except String StarParams :=
  let p := mkParams wdir (detect_chosen exF wdir m0 m1 m2 m3) uniform
  if exF p.whitelist then Except.ok p
  else Except.error ("Whitelist file not found: " ++ p.whitelist)

/-- Boolean discriminator for `Except` failure. -/
def exceptIsError {ε α : Type} : Except ε α → Bool
  | Except.error _ => true
  | Except.ok _ => false

/-! ## detect_parameters: the scan over the subsampled read-1 file
(map_reads.py lines 87-103)

The subsampled file `test.R1.fastq` is modelled as its list of lines (without
trailing newlines; `.strip()` is still applied as in the source).  The Python
code performs `next(f)` exactly 200000 times — once per iteration of
`range(0, 800000, 4)` — so it consumes the first 200000 raw lines of the
file and raises when the file is shorter. -/

/-- `[next(f) for _ in range(0, 800000, 4)]`: the first `n` lines of the file;
`none` models the `StopIteration`/`RuntimeError` raised when the file has
fewer than `n` lines. -/
def pyReadFirst (n : Nat) (lines : List String) : Option (List String) :=
  if n ≤ lines.length then some (lines.take n) else none

/-- Line 102: `next(f).strip()[:16]` applied to one consumed line. -/
def codeBarcodeOfLine (l : String) : String :=
  strTake 16 (pyStrip l)

/-- Line 100: `set(line.strip() for line in f)` — membership below is what the
count uses, so the set is modelled as the stripped line list. -/
def wlEntries (wl : List String) : List String :=
  wl.map pyStrip

/-- Lines 101-103: the whitelist match count the code computes for one present
candidate file — over the first 200000 raw lines of the subsampled file. -/
def codeWhitelistCount (wl : List String) (lines : List String) : Option Nat :=
  (pyReadFirst 200000 lines).map
    (fun tk => (tk.map codeBarcodeOfLine).countP (fun bc => (wlEntries wl).contains bc))

/-- Lines 88-89: `[len(next(f).strip()) for _ in range(0, 800000, 4)]` — the
stripped lengths of the first 200000 raw lines of the subsampled file. -/
def codeR1Lengths (lines : List String) : Option (List Nat) :=
  (pyReadFirst 200000 lines).map (List.map (fun l => (pyStrip l).length))

/-- Line 90: `r1_len = sum(r1_lengths) // len(r1_lengths)` (integer floor division). -/
def codeR1Len (lines : List String) : Option Nat :=
  (codeR1Lengths lines).map (fun ls => ls.sum / ls.length)

/-- Line 91: `r1_uniform = len(set(r1_lengths)) == 1`. -/
def codeR1Uniform (lines : List String) : Option Bool :=
  (codeR1Lengths lines).map (fun ls => ls.dedup.length == 1)

/-- The sequence line (second line) of each complete 4-line FASTQ record of the
file, in order; trailing incomplete records contribute nothing. -/
def recordSeqs : List String → List String
  | _ :: s :: _ :: _ :: rest => s :: recordSeqs rest
  | _ => []

/-- Modelled from the spec (section 4.2 step 3, and claim C3): the number of
sampled read-1 records whose sequence prefix of the first 16 characters is
exactly equal to some entry of the whitelist file. -/
def specMatchCount (wl : List String) (lines : List String) : Nat :=
  (recordSeqs lines).countP (fun s => (wlEntries wl).contains (strTake 16 s))

/-- Modelled from the spec (section 4.2 step 2, and claim C4): the lengths of
the sampled read-1 records' sequences, from which the spec's mean and
uniformity flag are defined. -/
def specReadLengths (lines : List String) : List Nat :=
  (recordSeqs lines).map String.length

/-! ## run_star_mapping (map_reads.py lines 134-184) -/

/-- Observable outcome of the single blocking STAR invocation: its exit code,
the captured output texts, and whether the expected output subdirectory is
present after the process returns. -/
structure StarRun where
  exitCode : Nat
  stdout : String
  stderr : String
  outDirPresent : Bool
deriving DecidableEq

/-- Failures of `run_star_mapping`: a missing required input path
(lines 141-143), or `subprocess.CalledProcessError` re-raised at lines 178-184
carrying the captured stdout and stderr. -/
inductive StarError
  | missingInput
  | alignmentFailed (out err : String)
deriving DecidableEq

/-- `run_star_mapping`, given that all required input paths exist
(`inputsExist`) and the observable behaviour `r` of the external process.
`subprocess.run(..., check=True)` raises exactly on a nonzero exit code; the
except block logs and re-raises.  No other check follows the invocation. -/
def run_star_mapping (inputsExist : Bool) (r : StarRun) : Except StarError Unit :=
  if inputsExist = false then Except.error StarError.missingInput
  else if r.exitCode ≠ 0 then Except.error (StarError.alignmentFailed r.stdout r.stderr)
  else Except.ok ()

/-! ## The batch orchestrator `main` (map_reads.py lines 194-239) -/

/-- One metadata row: the `Comment[read1 file]` and `Comment[read2 file]`
columns, `none` modelling a missing/NaN value. -/
structure Row where
  r1File : Option String
  r2File : Option String
deriving DecidableEq

/-- One sample group produced by `groupby`: the group key and its rows in
table order. -/
structure Group where
  name : String
  rows : List Row
deriving DecidableEq

/-- The orchestrator's environment: the filesystem existence oracle and the
outcomes of the two effectful stages, `detect_parameters` and
`run_star_mapping`, as functions of their inputs. -/
structure Env where
  fexists : String → Bool
  detect : String → String → Except String StarParams
  align : String → String → StarParams → Except String Unit

/-- `get_fastq_files` (lines 29-57): reads the two filename columns of the
row, fails when either is missing, joins each with the FASTQ directory and
fails when either joined path does not exist. -/
def get_fastq_files (fexists : String → Bool) (fastq_dir : String) (row : Row) :
    Except String (String × String) :=
  match row.r1File, row.r2File with
  | some r1f, some r2f =>
      let r1p := pjoin fastq_dir r1f
      let r2p := pjoin fastq_dir r2f
      if fexists r1p = false then Except.error ("R1 file not found: " ++ r1p)
      else if fexists r2p = false then Except.error ("R2 file not found: " ++ r2p)
      else Except.ok (r1p, r2p)
  | _, _ => Except.error "Missing read1 or read2 file information in metadata"

/-- The ordered log records `main` emits while processing the batch; this
stream is the per-run report.  `alignInvoked` marks the call into
`run_star_mapping` (which logs the STAR command before executing it). -/
inductive Event
  | processing (sample : String)
  | foundFastq (r1 r2 : String)
  | detectedParams (sample : String) (p : StarParams)
  | alignInvoked (sample : String)
  | success (sample : String)
  | errorLog (sample msg : String)
deriving DecidableEq

/-- Predicate for alignment-invocation events. -/
def isAlignEvent : Event → Bool
  | Event.alignInvoked _ => true
  | _ => false

/-- The per-sample body of the loop at lines 212-235: log the sample, take the
first row of the group (`sample_data.iloc[0]`), resolve the FASTQ pair, detect
parameters, invoke the aligner; any failure is logged with the sample name and
propagated (`except ... raise`).  Returns the emitted events and the
propagated error, if any. -/
def processSample (env : Env) (dir : String) (g : Group) : List Event × Option String :=
  match g.rows with
  | [] =>
      ([Event.processing g.name, Event.errorLog g.name "single positional indexer is out-of-bounds"],
       some "single positional indexer is out-of-bounds")
  | row :: _ =>
      match get_fastq_files env.fexists dir row with
      | Except.error e => ([Event.processing g.name, Event.errorLog g.name e], some e)
      | Except.ok (r1, r2) =>
          match env.detect r1 r2 with
          | Except.error e =>
              ([Event.processing g.name, Event.foundFastq r1 r2, Event.errorLog g.name e], some e)
          | Except.ok p =>
              match env.align r1 r2 p with
              | Except.error e =>
                  ([Event.processing g.name, Event.foundFastq r1 r2,
                    Event.detectedParams g.name p, Event.alignInvoked g.name,
                    Event.errorLog g.name e], some e)
              | Except.ok _ =>
                  ([Event.processing g.name, Event.foundFastq r1 r2,
                    Event.detectedParams g.name p, Event.alignInvoked g.name,
                    Event.success g.name], none)

/-- The `for sample_name, sample_data in sample_groups` loop of `main`
(lines 212-235): samples are processed in order; the first failure is
re-raised, aborting the remaining batch.  Returns the concatenated event
stream and the propagated error, if any. -/
def runBatch (env : Env) (dir : String) : List Group → List Event × Option String
  | [] => ([], none)
  | g :: gs =>
      match processSample env dir g with
      | (ev, some e) => (ev, some e)
      | (ev, none) =>
          let r := runBatch env dir gs
          (ev ++ r.1, r.2)

/-! ## detect_parameters scratch lifecycle (map_reads.py lines 64-132) -/

/-- The part of the filesystem `detect_parameters` scribbles on: the
`test_params` directory and the two temporary subsample files inside it. -/
structure ScratchFS where
  dirExists : Bool
  r1Exists : Bool
  r2Exists : Bool
deriving DecidableEq

/-- The statements of the `try` body at which an exception can occur: the two
subsample subprocesses (lines 74-77), the length scan (lines 88-91), and the
whitelist scan loop (lines 96-103).  The deliberate `FileNotFoundError` of
lines 118-120 is covered separately by the verification flag. -/
inductive DetectStep
  | subsample1
  | subsample2
  | readLengths
  | whitelistLoop
deriving DecidableEq

/-- State on entry to the `finally` block, plus the success flag, for each
exit path of the `try` body.  `made1`/`made2` record whether the failing
shell redirection had already created its output file; every later step runs
with both temp files present. -/
def detect_scratch_body (fault : Option DetectStep) (made1 made2 : Bool)
    (verifyOk : Bool) : ScratchFS × Bool :=
  match fault with
  | some DetectStep.subsample1 => (⟨true, made1, false⟩, false)
  | some DetectStep.subsample2 => (⟨true, true, made2⟩, false)
  | some DetectStep.readLengths => (⟨true, true, true⟩, false)
  | some DetectStep.whitelistLoop => (⟨true, true, true⟩, false)
  | none => (⟨true, true, true⟩, verifyOk)

/-- The `finally` block at lines 125-132: unlink `test_r1` if it exists, then
`test_r2`, then remove the directory (empty by then, since these two files
are the only entries the function put in it). -/
def scratch_cleanup (s : ScratchFS) : ScratchFS :=
  let s1 := if s.r1Exists then { s with r1Exists := false } else s
  let s2 := if s1.r2Exists then { s1 with r2Exists := false } else s1
  if s2.dirExists then { s2 with dirExists := false } else s2

/-- The whole scratch lifecycle of `detect_parameters`: `mkdir` at line 66
creates the directory (the initial state of `detect_scratch_body`), the `try`
body runs to one of its exit points, and the `finally` block always runs. -/
def detect_parameters_scratch (fault : Option DetectStep) (made1 made2 : Bool)
    (verifyOk : Bool) : ScratchFS × Bool :=
  let r := detect_scratch_body fault made1 made2 verifyOk
  (scratch_cleanup r.1, r.2)

/-! ## Concrete inputs used by counterexamples and witnesses -/

/-- A whitelist file holding the single 16-mer entry `AAAAAAAAAAAAAAAA`. -/
def demoWhitelist : List String := ["AAAAAAAAAAAAAAAA"]

/-- One FASTQ record: header, a 16-C sequence, separator, and a quality string
of 16 `A` characters (Phred+33 quality 32), so the quality line — but not the
read sequence — coincides with the whitelist entry. -/
def demoBlock : List String := ["@r", "CCCCCCCCCCCCCCCC", "+", "AAAAAAAAAAAAAAAA"]

/-- A subsampled read-1 file of exactly 200000 records (800000 lines), each a
copy of `demoBlock` — the shape `detect_parameters` produces at lines 74-75. -/
def demoR1File : List String := List.flatten (List.replicate 200000 demoBlock)

/-- Existence oracle under which only `737K-arc-v1.txt` is present in the
whitelist directory `wl`. -/
def exOnlyArc : String → Bool :=
  fun p => p == pjoin "wl" "737K-arc-v1.txt"

/-- Existence oracle under which no file exists at all. -/
def exNone : String → Bool := fun _ => false

/-- Chemistry parameters used by the concrete orchestrator environment. -/
def paramsW : StarParams :=
  mkParams "wl" "737K-arc-v1.txt" true

/-- Concrete orchestrator environment for witnesses: the four FASTQ files
below exist, detection succeeds for the pair rooted at `fq/a.gz` and fails
with a missing-whitelist message for every other pair, and alignment always
succeeds. -/
def envW : Env :=
  { fexists := fun p => p == "fq/a.gz" || p == "fq/b.gz" || p == "fq/c.gz" || p == "fq/d.gz",
    detect := fun r1 _ =>
      if r1 == "fq/a.gz" then Except.ok paramsW
      else Except.error "Whitelist file not found: wl/3M-february-2018.txt",
    align := fun _ _ _ => Except.ok () }

/-- A sample group that resolves, detects and aligns successfully under `envW`. -/
def gOK : Group := ⟨"S1", [⟨some "a.gz", some "b.gz"⟩]⟩

/-- A sample group whose detection fails under `envW`. -/
def gBAD : Group := ⟨"S2", [⟨some "c.gz", some "d.gz"⟩]⟩

/-- A sample group after the failing one; it must never be touched. -/
def gPOST : Group := ⟨"S3", [⟨some "a.gz", some "b.gz"⟩]⟩

/-! ## Helper lemmas -/

theorem length_flatten_replicate {α : Type} (l : List α) :
    ∀ n : Nat, (List.flatten (List.replicate n l)).length = n * l.length := by
  intro n
  induction n with
  | zero => simp
  | succ m ih =>
      simp only [List.replicate_succ, List.flatten_cons, List.length_append, ih]
      ring

theorem countP_flatten_replicate {α : Type} (p : α → Bool) (l : List α) :
    ∀ n : Nat, List.countP p (List.flatten (List.replicate n l)) = n * List.countP p l := by
  intro n
  induction n with
  | zero => simp
  | succ m ih =>
      simp only [List.replicate_succ, List.flatten_cons, List.countP_append, ih]
      ring

theorem sum_flatten_replicate (l : List Nat) :
    ∀ n : Nat, (List.flatten (List.replicate n l)).sum = n * l.sum := by
  intro n
  induction n with
  | zero => simp
  | succ m ih =>
      simp only [List.replicate_succ, List.flatten_cons, List.sum_append, ih]
      ring

theorem map_flatten_replicate {α β : Type} (f : α → β) (l : List α) :
    ∀ n : Nat,
      (List.flatten (List.replicate n l)).map f = List.flatten (List.replicate n (l.map f)) := by
  intro n
  induction n with
  | zero => simp
  | succ m ih =>
      simp only [List.replicate_succ, List.flatten_cons, List.map_append, ih]

theorem take_four_mul_flatten_replicate {α : Type} (a b c d : α) :
    ∀ (k n : Nat), k ≤ n →
      (List.flatten (List.replicate n [a, b, c, d])).take (4 * k)
        = List.flatten (List.replicate k [a, b, c, d]) := by
  intro k
  induction k with
  | zero => intro n _; simp
  | succ j ih =>
      intro n h
      match n, h with
      | Nat.succ m, h =>
          have hj : j ≤ m := Nat.le_of_succ_le_succ h
          have h4 : 4 * (j + 1) = 4 * j + 1 + 1 + 1 + 1 := by ring
          simp only [List.replicate_succ, List.flatten_cons, List.cons_append, List.nil_append,
            h4, List.take_succ_cons, ih m hj]

theorem recordSeqs_flatten_replicate (a b c d : String) :
    ∀ n : Nat,
      recordSeqs (List.flatten (List.replicate n [a, b, c, d])) = List.replicate n b := by
  intro n
  induction n with
  | zero => simp [recordSeqs]
  | succ m ih =>
      simp [List.replicate_succ, List.flatten_cons, recordSeqs, ih]

theorem countP_replicate {α : Type} (p : α → Bool) (a : α) :
    ∀ n : Nat, List.countP p (List.replicate n a) = n * (if p a then 1 else 0) := by
  intro n
  induction n with
  | zero => simp
  | succ m ih =>
      simp only [List.replicate_succ, List.countP_cons, ih]
      split <;> ring

theorem mem_flatten_replicate_pos {α : Type} {a : α} {l : List α} {n : Nat} (hn : 0 < n)
    (h : a ∈ l) : a ∈ List.flatten (List.replicate n l) := by
  cases n with
  | zero => exact absurd hn (by omega)
  | succ m =>
      simp only [List.replicate_succ, List.flatten_cons, List.mem_append]
      exact Or.inl h

theorem dedup_beq_one_false {a b : Nat} {l : List Nat} (ha : a ∈ l) (hb : b ∈ l)
    (hab : a ≠ b) : (l.dedup.length == 1) = false := by
  cases hq : (l.dedup.length == 1) with
  | false => rfl
  | true =>
      exfalso
      have hlen : l.dedup.length = 1 := by
        have := hq
        simpa using this
      rcases List.length_eq_one.mp hlen with ⟨x, hx⟩
      have ha2 : a ∈ l.dedup := List.mem_dedup.mpr ha
      have hb2 : b ∈ l.dedup := List.mem_dedup.mpr hb
      rw [hx] at ha2 hb2
      have h1 : a = x := List.mem_singleton.mp ha2
      have h2 : b = x := List.mem_singleton.mp hb2
      exact hab (h1.trans h2.symm)

theorem best_whitelist_cases (c0 c1 c2 c3 : Nat) :
    (best_whitelist c0 c1 c2 c3 = ("3M-february-2018.txt", c0) ∧ c1 ≤ c0 ∧ c2 ≤ c0 ∧ c3 ≤ c0)
    ∨ (best_whitelist c0 c1 c2 c3 = ("737K-august-2016.txt", c1) ∧ c0 < c1 ∧ c2 ≤ c1 ∧ c3 ≤ c1)
    ∨ (best_whitelist c0 c1 c2 c3 = ("737K-arc-v1.txt", c2) ∧ c0 < c2 ∧ c1 < c2 ∧ c3 ≤ c2)
    ∨ (best_whitelist c0 c1 c2 c3 = ("737K-april-2014_rc.txt", c3) ∧ c0 < c3 ∧ c1 < c3 ∧ c2 < c3) := by
  simp only [best_whitelist, pyMaxBySnd]
  dsimp only
  split_ifs <;>
    first
      | exact Or.inl ⟨rfl, by omega, by omega, by omega⟩
      | exact Or.inr (Or.inl ⟨rfl, by omega, by omega, by omega⟩)
      | exact Or.inr (Or.inr (Or.inl ⟨rfl, by omega, by omega, by omega⟩))
      | exact Or.inr (Or.inr (Or.inr ⟨rfl, by omega, by omega, by omega⟩))

theorem best_whitelist_fst_cases (c0 c1 c2 c3 : Nat) :
    (best_whitelist c0 c1 c2 c3).1 = "3M-february-2018.txt"
    ∨ (best_whitelist c0 c1 c2 c3).1 = "737K-august-2016.txt"
    ∨ (best_whitelist c0 c1 c2 c3).1 = "737K-arc-v1.txt"
    ∨ (best_whitelist c0 c1 c2 c3).1 = "737K-april-2014_rc.txt" := by
  rcases best_whitelist_cases c0 c1 c2 c3 with ⟨he, -⟩ | ⟨he, -⟩ | ⟨he, -⟩ | ⟨he, -⟩ <;>
    rw [he] <;>
    first
      | exact Or.inl rfl
      | exact Or.inr (Or.inl rfl)
      | exact Or.inr (Or.inr (Or.inl rfl))
      | exact Or.inr (Or.inr (Or.inr rfl))

theorem processSample_ok_shape (env : Env) (dir : String) (g : Group)
    (h : (processSample env dir g).2 = none) :
    ∃ row rest r1 r2 p, g.rows = row :: rest
      ∧ get_fastq_files env.fexists dir row = Except.ok (r1, r2)
      ∧ env.detect r1 r2 = Except.ok p
      ∧ env.align r1 r2 p = Except.ok ()
      ∧ (processSample env dir g).1
          = [Event.processing g.name, Event.foundFastq r1 r2, Event.detectedParams g.name p,
             Event.alignInvoked g.name, Event.success g.name] := by
  rcases g with ⟨n, rows⟩
  cases rows with
  | nil => simp [processSample] at h
  | cons row rest =>
      rcases hg : get_fastq_files env.fexists dir row with e | pr
      · simp [processSample, hg] at h
      · rcases pr with ⟨r1, r2⟩
        rcases hd : env.detect r1 r2 with e | p
        · simp [processSample, hg, hd] at h
        · rcases ha : env.align r1 r2 p with e | u
          · simp [processSample, hg, hd, ha] at h
          · cases u
            exact ⟨row, rest, r1, r2, p, rfl, hg, hd, ha, by simp [processSample, hg, hd, ha]⟩

theorem processSample_fail_events (env : Env) (dir : String) (g : Group) (e : String)
    (h : (processSample env dir g).2 = some e) :
    Event.processing g.name ∈ (processSample env dir g).1
    ∧ Event.errorLog g.name e ∈ (processSample env dir g).1 := by
  rcases g with ⟨n, rows⟩
  cases rows with
  | nil =>
      simp [processSample] at h ⊢
      simp [← h]
  | cons row rest =>
      rcases hg : get_fastq_files env.fexists dir row with e0 | pr
      · simp [processSample, hg] at h ⊢
        simp [← h]
      · rcases pr with ⟨r1, r2⟩
        rcases hd : env.detect r1 r2 with e0 | p
        · simp [processSample, hg, hd] at h ⊢
          simp [← h]
        · rcases ha : env.align r1 r2 p with e0 | u
          · simp [processSample, hg, hd, ha] at h ⊢
            simp [← h]
          · simp [processSample, hg, hd, ha] at h

theorem runBatch_fail_head (env : Env) (dir : String) (g : Group) (gs : List Group) (e : String)
    (h : (processSample env dir g).2 = some e) :
    runBatch env dir (g :: gs) = ((processSample env dir g).1, some e) := by
  rcases hp : processSample env dir g with ⟨ev, o⟩
  rw [hp] at h
  simp only at h
  subst h
  simp [runBatch, hp]

theorem runBatch_ok_head (env : Env) (dir : String) (g : Group) (gs : List Group)
    (h : (processSample env dir g).2 = none) :
    runBatch env dir (g :: gs)
      = ((processSample env dir g).1 ++ (runBatch env dir gs).1, (runBatch env dir gs).2) := by
  rcases hp : processSample env dir g with ⟨ev, o⟩
  rw [hp] at h
  simp only at h
  subst h
  simp [runBatch, hp]

theorem runBatch_append_all_ok (env : Env) (dir : String) :
    ∀ (pre rest : List Group), (∀ g' ∈ pre, (processSample env dir g').2 = none) →
      runBatch env dir (pre ++ rest)
        = ((pre.map fun g' => (processSample env dir g').1).flatten ++ (runBatch env dir rest).1,
           (runBatch env dir rest).2) := by
  intro pre
  induction pre with
  | nil => intro rest _; simp
  | cons g' pre ih =>
      intro rest h
      have hg : (processSample env dir g').2 = none := h g' (by simp)
      have hrest := ih rest (fun x hx => h x (by simp [hx]))
      rw [List.cons_append, runBatch_ok_head env dir g' (pre ++ rest) hg, hrest]
      simp [List.append_assoc]

/-! ## Claim theorems -/

/-- Claim C1: for every match-count assignment over the four fixed whitelist
candidates, `detect_parameters` selects a candidate with the maximum match
count, and whenever two or more candidates share the maximum (including an
all-zero tie) it deterministically selects the earliest-declared of the tied
candidates: the selected candidate's count is strictly greater than every
earlier-declared candidate's count and at least every later-declared one's. -/
theorem detect_selects_max_tie_earliest (c0 c1 c2 c3 : Nat) :
    (best_whitelist c0 c1 c2 c3 = ("3M-february-2018.txt", c0) ∧ c1 ≤ c0 ∧ c2 ≤ c0 ∧ c3 ≤ c0)
    ∨ (best_whitelist c0 c1 c2 c3 = ("737K-august-2016.txt", c1) ∧ c0 < c1 ∧ c2 ≤ c1 ∧ c3 ≤ c1)
    ∨ (best_whitelist c0 c1 c2 c3 = ("737K-arc-v1.txt", c2) ∧ c0 < c2 ∧ c1 < c2 ∧ c3 ≤ c2)
    ∨ (best_whitelist c0 c1 c2 c3 = ("737K-april-2014_rc.txt", c3) ∧ c0 < c3 ∧ c1 < c3 ∧ c2 < c3) :=
  best_whitelist_cases c0 c1 c2 c3

/-- Claim C1 witness: at the tied assignment (5, 7, 7, 3) the second-declared
candidate wins the tie with the third. -/
theorem detect_selects_max_tie_earliest_w :
    (best_whitelist 5 7 7 3 = ("3M-february-2018.txt", 5) ∧ 7 ≤ 5 ∧ 7 ≤ 5 ∧ 3 ≤ 5)
    ∨ (best_whitelist 5 7 7 3 = ("737K-august-2016.txt", 7) ∧ 5 < 7 ∧ 7 ≤ 7 ∧ 3 ≤ 7)
    ∨ (best_whitelist 5 7 7 3 = ("737K-arc-v1.txt", 7) ∧ 5 < 7 ∧ 7 < 7 ∧ 3 ≤ 7)
    ∨ (best_whitelist 5 7 7 3 = ("737K-april-2014_rc.txt", 3) ∧ 5 < 3 ∧ 7 < 3 ∧ 7 < 3) :=
  detect_selects_max_tie_earliest 5 7 7 3

/-- Claim C2: for every selected whitelist among the four fixed candidates,
the (cb_len, umi_len) produced by `detect_parameters` agrees with the spec's
fixed filename table and is a pure function of the selected filename —
(16,12) for the 3M name, (16,10) for 737K-august-2016, (14,10) for the other
two — independent of the match counts `c0 c1 c2 c3` and of the read content. -/
theorem detect_chem_pure_table (c0 c1 c2 c3 : Nat) (n : String)
    (h : (best_whitelist c0 c1 c2 c3).1 = n) :
    (cb_len_of n, umi_len_of n) = specChemTable n
    ∧ ((n = "3M-february-2018.txt" ∧ (cb_len_of n, umi_len_of n) = (16, 12))
      ∨ (n = "737K-august-2016.txt" ∧ (cb_len_of n, umi_len_of n) = (16, 10))
      ∨ (n = "737K-arc-v1.txt" ∧ (cb_len_of n, umi_len_of n) = (14, 10))
      ∨ (n = "737K-april-2014_rc.txt" ∧ (cb_len_of n, umi_len_of n) = (14, 10))) := by
  rcases best_whitelist_fst_cases c0 c1 c2 c3 with he | he | he | he <;>
    rw [he] at h <;> subst h <;> decide

/-- Claim C2 witness: with all-zero counts the selected whitelist is the
3M name and its chemistry is (16, 12). -/
theorem detect_chem_pure_table_w :
    (cb_len_of "3M-february-2018.txt", umi_len_of "3M-february-2018.txt")
        = specChemTable "3M-february-2018.txt"
    ∧ (("3M-february-2018.txt" = "3M-february-2018.txt"
          ∧ (cb_len_of "3M-february-2018.txt", umi_len_of "3M-february-2018.txt") = (16, 12))
      ∨ ("3M-february-2018.txt" = "737K-august-2016.txt"
          ∧ (cb_len_of "3M-february-2018.txt", umi_len_of "3M-february-2018.txt") = (16, 10))
      ∨ ("3M-february-2018.txt" = "737K-arc-v1.txt"
          ∧ (cb_len_of "3M-february-2018.txt", umi_len_of "3M-february-2018.txt") = (14, 10))
      ∨ ("3M-february-2018.txt" = "737K-april-2014_rc.txt"
          ∧ (cb_len_of "3M-february-2018.txt", umi_len_of "3M-february-2018.txt") = (14, 10))) :=
  detect_chem_pure_table 0 0 0 0 "3M-february-2018.txt" (by decide)

/-- Claim C9: the scratch directory and the two temporary subsampled files
created by `detect_parameters` are absent after the call returns, on every
exit path — success, detected error, or a fault at any statement of the
`try` body. -/
theorem detect_scratch_always_clean (fault : Option DetectStep) (made1 made2 : Bool)
    (verifyOk : Bool) :
    (detect_parameters_scratch fault made1 made2 verifyOk).1
      = { dirExists := false, r1Exists := false, r2Exists := false } := by
  rcases fault with - | step
  · cases made1 <;> cases made2 <;> cases verifyOk <;> rfl
  · cases step <;> cases made1 <;> cases made2 <;> cases verifyOk <;> rfl

/-- Claim C9 witness: the fault-free successful run leaves no scratch state. -/
theorem detect_scratch_always_clean_w :
    (detect_parameters_scratch none false false true).1
      = { dirExists := false, r1Exists := false, r2Exists := false } :=
  detect_scratch_always_clean none false false true

/-- Claim C10: for every sample group, only the first metadata row of the
group supplies the read-1/read-2 file references used for resolution,
detection, and alignment: the whole per-sample outcome (events and error) is
unchanged under any replacement of the remaining rows. -/
theorem processSample_first_row_only (env : Env) (dir sampleName : String) (row : Row)
    (rest rest2 : List Row) :
    processSample env dir ⟨sampleName, row :: rest⟩
      = processSample env dir ⟨sampleName, row :: rest2⟩ := rfl

/-- Claim C10 witness: a two-row group behaves exactly as the one-row group
with the same first row. -/
theorem processSample_first_row_only_w :
    processSample envW "fq" ⟨"S1", [⟨some "a.gz", some "b.gz"⟩, ⟨some "x.gz", some "y.gz"⟩]⟩
      = processSample envW "fq" ⟨"S1", [⟨some "a.gz", some "b.gz"⟩]⟩ :=
  processSample_first_row_only envW "fq" "S1" ⟨some "a.gz", some "b.gz"⟩
    [⟨some "x.gz", some "y.gz"⟩] []

/-- Claim C3 and C4 shared fact: the demo subsample file has 800000 lines. -/
theorem demoR1File_length : demoR1File.length = 800000 := by
  simp only [demoR1File, length_flatten_replicate]
  norm_num [demoBlock]

/-- The first 200000 raw lines of the demo file are its first 50000 records. -/
theorem demoR1File_take :
    demoR1File.take 200000 = List.flatten (List.replicate 50000 demoBlock) := by
  have h := take_four_mul_flatten_replicate "@r" "CCCCCCCCCCCCCCCC" "+" "AAAAAAAAAAAAAAAA"
    50000 200000 (by norm_num)
  have h200 : 4 * 50000 = 200000 := by norm_num
  rw [h200] at h
  simpa only [demoR1File, demoBlock] using h

/-- The 200000 `next(f)` calls consume exactly the first 50000 records. -/
theorem demoR1File_pyReadFirst :
    pyReadFirst 200000 demoR1File = some (List.flatten (List.replicate 50000 demoBlock)) := by
  unfold pyReadFirst
  rw [if_pos (by rw [demoR1File_length]; norm_num), demoR1File_take]

/-- Claim C3 (divergence at the failing input): on a subsampled read-1 file
of 200000 records whose read sequences never match the whitelist but whose
quality lines coincide with a whitelist entry, the code computes a match
count of 50000 — it scans the first 200000 raw lines of the file, i.e. all
four line types of the first 50000 records — while the number of sampled
records whose 16-character sequence prefix matches a whitelist entry is 0. -/
theorem code_count_scans_lines_not_records :
    codeWhitelistCount demoWhitelist demoR1File = some 50000
    ∧ specMatchCount demoWhitelist demoR1File = 0 := by
  constructor
  · unfold codeWhitelistCount
    rw [demoR1File_pyReadFirst]
    simp only [Option.map_some']
    rw [map_flatten_replicate, countP_flatten_replicate]
    have hc : List.countP (fun bc => (wlEntries demoWhitelist).contains bc)
        (demoBlock.map codeBarcodeOfLine) = 1 := by decide
    rw [hc]
  · simp only [specMatchCount, demoR1File, demoBlock]
    rw [recordSeqs_flatten_replicate, countP_replicate]
    decide

/-- Claim C4 (divergence at the failing input): on the same file every
sampled read has length 16, yet the code reports a mean of 8 and a
non-uniform flag, because it measures the first 200000 raw lines (headers,
separators and quality strings included) instead of the record sequences. -/
theorem code_length_stats_scan_lines_not_records :
    codeR1Len demoR1File = some 8
    ∧ codeR1Uniform demoR1File = some false
    ∧ specReadLengths demoR1File = List.replicate 200000 16 := by
  have h2 : codeR1Lengths demoR1File
      = some (List.flatten (List.replicate 50000 [2, 16, 1, 16])) := by
    unfold codeR1Lengths
    rw [demoR1File_pyReadFirst]
    simp only [Option.map_some']
    rw [map_flatten_replicate]
    have hb : demoBlock.map (fun l => (pyStrip l).length) = [2, 16, 1, 16] := by decide
    rw [hb]
  refine ⟨?_, ?_, ?_⟩
  · unfold codeR1Len
    rw [h2]
    simp only [Option.map_some']
    rw [sum_flatten_replicate, length_flatten_replicate]
    norm_num [List.sum_cons, List.sum_nil]
  · unfold codeR1Uniform
    rw [h2]
    simp only [Option.map_some']
    have h2m : (2 : Nat) ∈ List.flatten (List.replicate 50000 [2, 16, 1, 16]) :=
      mem_flatten_replicate_pos (by norm_num) (by decide)
    have h16 : (16 : Nat) ∈ List.flatten (List.replicate 50000 [2, 16, 1, 16]) :=
      mem_flatten_replicate_pos (by norm_num) (by decide)
    rw [dedup_beq_one_false h2m h16 (by norm_num)]
  · simp only [specReadLengths, demoR1File, demoBlock]
    rw [recordSeqs_flatten_replicate, List.map_replicate]
    rfl

/-- Claim C5 counterexample: with only `737K-arc-v1.txt` present in the
whitelist directory (and every count zero), `detect_parameters` still fails
with the missing-whitelist `FileNotFoundError`, even though one of the four
fixed filenames exists — refuting the claimed "only if none exist". -/
theorem detect_error_despite_present_whitelist :
    detect_parameters_select exOnlyArc "wl" 0 0 0 0 true
      = Except.error "Whitelist file not found: wl/3M-february-2018.txt"
    ∧ exOnlyArc (pjoin "wl" "737K-arc-v1.txt") = true :=
  ⟨rfl, rfl⟩

/-- Claim C5 (amended): `detect_parameters` fails with the missing-whitelist
error exactly when the selected best candidate's file is absent; in
particular it always fails when none of the four fixed filenames exist, and
whenever detection fails for a sample no alignment is invoked for it. -/
theorem detect_missing_whitelist_iff (exF : String → Bool) (wdir : String)
    (m0 m1 m2 m3 : Nat) (uniform : Bool) :
    (exceptIsError (detect_parameters_select exF wdir m0 m1 m2 m3 uniform) = true
      ↔ exF (pjoin wdir (detect_chosen exF wdir m0 m1 m2 m3)) = false)
    ∧ ((exF (pjoin wdir "3M-february-2018.txt") = false
        ∧ exF (pjoin wdir "737K-august-2016.txt") = false
        ∧ exF (pjoin wdir "737K-arc-v1.txt") = false
        ∧ exF (pjoin wdir "737K-april-2014_rc.txt") = false) →
      detect_parameters_select exF wdir m0 m1 m2 m3 uniform
        = Except.error ("Whitelist file not found: " ++ pjoin wdir "3M-february-2018.txt"))
    ∧ (∀ (env : Env) (dir gname : String) (row : Row) (rest : List Row) (r1 r2 e : String),
        get_fastq_files env.fexists dir row = Except.ok (r1, r2) →
        env.detect r1 r2 = Except.error e →
        ∀ s, Event.alignInvoked s ∉ (processSample env dir ⟨gname, row :: rest⟩).1) := by
  refine ⟨?_, ?_, ?_⟩
  · cases h : exF (pjoin wdir (detect_chosen exF wdir m0 m1 m2 m3)) <;>
      simp [detect_parameters_select, mkParams, exceptIsError, h]
  · rintro ⟨h0, h1, h2, h3⟩
    simp [detect_parameters_select, mkParams, detect_chosen, effCount, h0, h1, h2, h3,
      best_whitelist, pyMaxBySnd]
  · intro env dir gname row rest r1 r2 e hg hd s
    simp [processSample, hg, hd]

/-- Claim C5 witness: with no whitelist file present at all, detection fails
with the missing-whitelist error for the first-declared candidate. -/
theorem detect_missing_whitelist_iff_w :
    detect_parameters_select exNone "wl" 0 0 0 0 true
      = Except.error ("Whitelist file not found: " ++ pjoin "wl" "3M-february-2018.txt") :=
  (detect_missing_whitelist_iff exNone "wl" 0 0 0 0 true).2.1 ⟨rfl, rfl, rfl, rfl⟩

/-- Claim C6 counterexample: the external process exits with code zero while
the expected output subdirectory is absent, yet `run_star_mapping` reports
success — refuting the claim that success requires the output subdirectory
to be present. -/
theorem star_success_without_outdir :
    run_star_mapping true { exitCode := 0, stdout := "so", stderr := "se", outDirPresent := false }
      = Except.ok ()
    ∧ (StarRun.mk 0 "so" "se" false).outDirPresent = false :=
  ⟨rfl, rfl⟩

/-- Claim C6 (amended): `run_star_mapping` reports success exactly when the
required input paths exist and the external process exits zero — the presence
of the output subdirectory is never checked; on nonzero exit it raises an
error carrying the captured stdout and stderr; and the invocation is never
retried (at most one alignment invocation occurs per sample). -/
theorem run_star_mapping_success_iff (inputsExist : Bool) (r : StarRun) :
    (run_star_mapping inputsExist r = Except.ok () ↔ inputsExist = true ∧ r.exitCode = 0)
    ∧ (inputsExist = true → r.exitCode ≠ 0 →
        run_star_mapping inputsExist r = Except.error (StarError.alignmentFailed r.stdout r.stderr))
    ∧ (∀ b : Bool,
        run_star_mapping inputsExist { r with outDirPresent := b } = run_star_mapping inputsExist r)
    ∧ (∀ (env : Env) (dir : String) (g : Group),
        ((processSample env dir g).1.countP isAlignEvent) ≤ 1) := by
  refine ⟨?_, ?_, ?_, ?_⟩
  · cases inputsExist <;> by_cases h : r.exitCode = 0 <;> simp [run_star_mapping, h]
  · intro h1 h2
    simp [run_star_mapping, h1, h2]
  · intro b
    rfl
  · intro env dir g
    rcases g with ⟨n, rows⟩
    cases rows with
    | nil => simp [processSample, isAlignEvent]
    | cons row rest =>
        rcases hg : get_fastq_files env.fexists dir row with e | pr
        · simp [processSample, hg, isAlignEvent]
        · rcases pr with ⟨r1, r2⟩
          rcases hd : env.detect r1 r2 with e | p
          · simp [processSample, hg, hd, isAlignEvent]
          · rcases ha : env.align r1 r2 p with e | u
            · simp [processSample, hg, hd, ha, isAlignEvent, List.countP_cons]
            · simp [processSample, hg, hd, ha, isAlignEvent, List.countP_cons]

/-- Claim C6 witness: a nonzero exit raises the alignment error carrying the
captured output texts. -/
theorem run_star_mapping_success_iff_w :
    run_star_mapping true { exitCode := 1, stdout := "o", stderr := "e", outDirPresent := true }
      = Except.error (StarError.alignmentFailed "o" "e") :=
  (run_star_mapping_success_iff true ⟨1, "o", "e", true⟩).2.1 rfl (by decide)

/-- Claim C7: a failure at any stage of any sample aborts the remaining
batch at that sample — the whole batch outcome equals that of the batch
truncated right after the failing sample, so no subsequent sample in
metadata order is resolved, detected, or aligned, and the propagated error
is the failing sample's. -/
theorem batch_aborts_at_first_failure (env : Env) (dir : String) (pre : List Group) (g : Group)
    (post : List Group) (e : String)
    (hpre : ∀ g' ∈ pre, (processSample env dir g').2 = none)
    (hfail : (processSample env dir g).2 = some e) :
    runBatch env dir (pre ++ g :: post) = runBatch env dir (pre ++ [g])
    ∧ (runBatch env dir (pre ++ g :: post)).2 = some e := by
  have h1 := runBatch_append_all_ok env dir pre (g :: post) hpre
  have h2 := runBatch_append_all_ok env dir pre [g] hpre
  have h3 := runBatch_fail_head env dir g post e hfail
  have h4 := runBatch_fail_head env dir g [] e hfail
  rw [h1, h2, h3, h4]
  simp

/-- Claim C7 witness: after S1 succeeds and S2 fails detection, the batch
outcome ignores S3 entirely and propagates S2's error. -/
theorem batch_aborts_at_first_failure_w :
    runBatch envW "fq" ([gOK] ++ gBAD :: [gPOST]) = runBatch envW "fq" ([gOK] ++ [gBAD])
    ∧ (runBatch envW "fq" ([gOK] ++ gBAD :: [gPOST])).2
        = some "Whitelist file not found: wl/3M-february-2018.txt" :=
  batch_aborts_at_first_failure envW "fq" [gOK] gBAD [gPOST]
    "Whitelist file not found: wl/3M-february-2018.txt" (by decide) (by decide)

/-- Claim C8: every sample completed or failed before the abort point is
recorded in order in the per-run report (the emitted log stream): the report
is exactly the concatenation of the per-sample records up to and including
the failing sample; each completed sample contributes its identifier, its
success record and its resolved paths; and the failing sample contributes
its identifier with the failure diagnostics. -/
theorem batch_partial_report (env : Env) (dir : String) (pre : List Group) (g : Group)
    (post : List Group) (e : String)
    (hpre : ∀ g' ∈ pre, (processSample env dir g').2 = none)
    (hfail : (processSample env dir g).2 = some e) :
    (runBatch env dir (pre ++ g :: post)).1
      = (pre.map fun g' => (processSample env dir g').1).flatten ++ (processSample env dir g).1
    ∧ (∀ g' ∈ pre,
        Event.processing g'.name ∈ (runBatch env dir (pre ++ g :: post)).1
        ∧ Event.success g'.name ∈ (runBatch env dir (pre ++ g :: post)).1
        ∧ ∃ row rest r1 r2, g'.rows = row :: rest
            ∧ get_fastq_files env.fexists dir row = Except.ok (r1, r2)
            ∧ Event.foundFastq r1 r2 ∈ (runBatch env dir (pre ++ g :: post)).1)
    ∧ Event.processing g.name ∈ (runBatch env dir (pre ++ g :: post)).1
    ∧ Event.errorLog g.name e ∈ (runBatch env dir (pre ++ g :: post)).1 := by
  have h1 := runBatch_append_all_ok env dir pre (g :: post) hpre
  have h3 := runBatch_fail_head env dir g post e hfail
  have htr : (runBatch env dir (pre ++ g :: post)).1
      = (pre.map fun g' => (processSample env dir g').1).flatten ++ (processSample env dir g).1 := by
    rw [h1, h3]
  refine ⟨htr, ?_, ?_, ?_⟩
  · intro g' hg'
    rcases processSample_ok_shape env dir g' (hpre g' hg') with
      ⟨row, rest, r1, r2, p, hrows, hres, hdet, hal, hev⟩
    have hmem : ∀ ev ∈ (processSample env dir g').1, ev ∈ (runBatch env dir (pre ++ g :: post)).1 := by
      intro ev hevm
      rw [htr]
      exact List.mem_append_left _
        (List.mem_flatten.mpr ⟨(processSample env dir g').1, List.mem_map_of_mem _ hg', hevm⟩)
    refine ⟨hmem _ (by rw [hev]; simp), hmem _ (by rw [hev]; simp), row, rest, r1, r2, hrows,
      hres, hmem _ (by rw [hev]; simp)⟩
  · rcases processSample_fail_events env dir g e hfail with ⟨hp, -⟩
    rw [htr]
    exact List.mem_append_right _ hp
  · rcases processSample_fail_events env dir g e hfail with ⟨-, hp⟩
    rw [htr]
    exact List.mem_append_right _ hp

/-- Claim C8 witness: in the concrete aborted batch, S1's success record and
S2's failure diagnostics are both present in the partial report. -/
theorem batch_partial_report_w :
    Event.success "S1" ∈ (runBatch envW "fq" ([gOK] ++ gBAD :: [gPOST])).1
    ∧ Event.errorLog "S2" "Whitelist file not found: wl/3M-february-2018.txt"
        ∈ (runBatch envW "fq" ([gOK] ++ gBAD :: [gPOST])).1 :=
  ⟨((batch_partial_report envW "fq" [gOK] gBAD [gPOST]
      "Whitelist file not found: wl/3M-february-2018.txt" (by decide) (by decide)).2.1
      gOK (by simp)).2.1,
   (batch_partial_report envW "fq" [gOK] gBAD [gPOST]
      "Whitelist file not found: wl/3M-february-2018.txt" (by decide) (by decide)).2.2.2⟩

end MapReads
